import Mathlib

/-!
Shallow embedding of `src/backend/extract.py`, the asset classification,
export-dispatch and manifest-aggregation pipeline of the Unity asset
extractor, together with proofs of the specification claims about it.

Modelling conventions:
* Python strings are Lean `String`s (lists of characters); `str.isalnum` is
  modelled by `Char.isAlphanum` (the claims only exercise the ASCII fragment),
  and `str.strip()` by dropping whitespace characters from both ends.
* Python byte strings are `List Nat`; only their length is observable in the
  manifest (`sizeBytes` is measured from the written file).
* Python `dict`s keyed by strings are association lists with insertion-order
  update semantics (`pyGet` / `setAssoc`), matching `dict.get`/`d[k] = v`.
* Exceptions are `Except String`; the per-branch exporter bodies of
  `extract_apk` catch all their own exceptions and set `wrote` only after a
  successful write, so each exporter is modelled as a function returning
  `Option Bytes` — `none` covers both a falsy guard and a caught exception,
  `some content` means the destination file was (re)written with `content`.
  The encoded image produced by `img.save` and the serialized JSON text of
  `json.dump` come from external libraries and are therefore carried as data
  on the object record.
* `os.path.join(category, filename)` is modelled as `category ++ "/" ++
  filename`: categories are fixed non-empty literals and filenames never
  contain a path separator.
* File sizes fit in a double (`b < 2^53`), so `b / 1024` and `b / 1024**2`
  are exact binary floating point values and Python's `:.1f` formatting is
  exact rational rounding to one decimal with ties to even, which is what
  `round1` implements.
-/

namespace UnityExtract

/-- Byte strings, as written to an output file. -/
abbrev Bytes := List Nat

/-- Association-list lookup with string keys, modelling Python `dict.get`. -/
def pyGet {α : Type} : List (String × α) → String → Option α
  | [], _ => none
  | (k, v) :: rest, key => if k = key then some v else pyGet rest key

/-- Association-list update, modelling Python `d[k] = v` (insertion order kept,
new keys appended at the end). -/
def setAssoc {α : Type} : List (String × α) → String → α → List (String × α)
  | [], key, v => [(key, v)]
  | (k, w) :: rest, key, v =>
    if k = key then (key, v) :: rest else (k, w) :: setAssoc rest key v

/-- One row of the `TYPE_META` table: export category, display marker and
output extension. -/
structure TypeMeta where
  type : String
  emoji : String
  ext : String
deriving Repr, DecidableEq

/-- The static `TYPE_META` table of `extract.py` (lines 31-43). -/
def TYPE_META : List (String × TypeMeta) := [
  ("Texture2D",     { type := "texture",  emoji := "🖼",  ext := "png"  }),
  ("Sprite",        { type := "texture",  emoji := "🖼",  ext := "png"  }),
  ("AudioClip",     { type := "audio",    emoji := "🔊",  ext := "wav"  }),
  ("Mesh",          { type := "mesh",     emoji := "🧊",  ext := "obj"  }),
  ("TextAsset",     { type := "text",     emoji := "📄",  ext := "txt"  }),
  ("MonoBehaviour", { type := "script",   emoji := "📜",  ext := "json" }),
  ("Font",          { type := "font",     emoji := "🔤",  ext := "ttf"  }),
  ("Shader",        { type := "shader",   emoji := "✨",  ext := "txt"  }),
  ("Material",      { type := "material", emoji := "🎨",  ext := "mat"  }),
  ("AnimationClip", { type := "anim",     emoji := "🎬",  ext := "anim" }),
  ("GameObject",    { type := "prefab",   emoji := "🧩",  ext := "json" })]

/-- The character condition of `safe_name`: `c.isalnum() or c in "._- "`. -/
def allowedChar (c : Char) : Bool :=
  c.isAlphanum || c = '.' || c = '_' || c = '-' || c = ' '

/-- Drop whitespace characters from both ends of a character list,
modelling Python `str.strip()`. -/
def pyStripData (l : List Char) : List Char :=
  ((l.dropWhile Char.isWhitespace).reverse.dropWhile Char.isWhitespace).reverse

/-- String form of `pyStripData`. -/
def pyStrip (s : String) : String :=
  String.mk (pyStripData s.data)

/-- Model of `safe_name` (extract.py lines 45-49): `None` and `""` are the
falsy inputs that return the `"unnamed"` fallback; otherwise every character
failing `allowedChar` is replaced by `'_'` and the result is stripped. -/
def safe_name : Option String → String
  | none => "unnamed"
  | some s =>
    if s = "" then "unnamed"
    else pyStrip (String.mk (s.data.map fun c => if allowedChar c then c else '_'))

/-- Model of Python's `x or y` for an optional string `x`: `None` and `""`
are falsy. -/
def pyOr : Option String → String → String
  | none, y => y
  | some s, y => if s = "" then y else s

/-- The inline name-deduplication step of `extract_apk` (lines 71-76): if the
name is already registered, bump its counter and append `_counter`; otherwise
register it with counter 0 and return it unchanged. -/
def dedupName (seen : List (String × Nat)) (name : String) :
    String × List (String × Nat) :=
  match pyGet seen name with
  | some k => (name ++ "_" ++ Nat.repr (k + 1), setAssoc seen name (k + 1))
  | none => (name, setAssoc seen name 0)

/-- Iterated calls to `dedupName` with one fixed base name, returning the
produced names in call order together with the final registry. -/
def dedupCalls (seen : List (String × Nat)) (base : String) :
    Nat → List String × List (String × Nat)
  | 0 => ([], seen)
  | n + 1 =>
    let r := dedupName seen base
    let rest := dedupCalls r.2 base n
    (r.1 :: rest.1, rest.2)

/-- UTF-8 encoding of one code point, modelling Python `str.encode("utf-8")`
at the byte level. -/
def encodeCharUtf8 (n : Nat) : Bytes :=
  if n < 0x80 then [n]
  else if n < 0x800 then [0xC0 + n / 0x40, 0x80 + n % 0x40]
  else if n < 0x10000 then
    [0xE0 + n / 0x1000, 0x80 + (n / 0x40) % 0x40, 0x80 + n % 0x40]
  else
    [0xF0 + n / 0x40000, 0x80 + (n / 0x1000) % 0x40,
     0x80 + (n / 0x40) % 0x40, 0x80 + n % 0x40]

/-- UTF-8 encoding of a string. -/
def utf8Bytes (s : String) : Bytes :=
  s.data.foldr (fun c acc => encodeCharUtf8 c.toNat ++ acc) []

/-- The `m_Script` payload of a `TextAsset`: either raw bytes (written as-is)
or text (encoded as UTF-8). -/
inductive ScriptVal where
  | bytes (bs : Bytes)
  | str (s : String)
deriving Repr, DecidableEq

/-- The typed payload produced by `obj.parse_as_object()`. `image` carries,
for texture-like objects, the encoded raster bytes that `img.save` writes
(`none` when `data.image` is falsy or image decoding or saving raises).
`samples` is the ordered `data.samples` mapping of an `AudioClip`. -/
structure Payload where
  m_Name : Option String
  image : Option Bytes
  samples : List (String × Bytes)
  m_Script : Option ScriptVal
deriving Repr, DecidableEq

/-- The two fields of the `obj.parse_as_dict()` typetree that the mesh
exporter reads; `none` models an absent key (`dict.get` default `[]`). -/
structure MeshDict where
  m_Vertices : Option (List Int)
  m_IndexBuffer : Option (List Nat)
deriving Repr, DecidableEq

/-- The result of `obj.parse_as_dict()`: the mesh fields plus the serialized
text that `json.dump(d, indent=2, ensure_ascii=False, default=str)` produces
for it (the JSON serializer is an external library, so its output text is
carried as data). -/
structure PyDict where
  mesh : MeshDict
  jsonDump : String
deriving Repr, DecidableEq

instance {ε α : Type} [DecidableEq ε] [DecidableEq α] :
    DecidableEq (Except ε α) := fun a b =>
  match a, b with
  | Except.ok x, Except.ok y =>
    if h : x = y then isTrue (by rw [h])
    else isFalse fun hc => h (by cases hc; rfl)
  | Except.error x, Except.error y =>
    if h : x = y then isTrue (by rw [h])
    else isFalse fun hc => h (by cases hc; rfl)
  | Except.ok _, Except.error _ => isFalse fun hc => Except.noConfusion hc
  | Except.error _, Except.ok _ => isFalse fun hc => Except.noConfusion hc

/-- One object record yielded by the AssetSource (`env.objects`). -/
structure PyObj where
  type_name : String
  parse_as_object : Except String Payload
  parse_as_dict : Except String PyDict
  assets_file_name : Option String
deriving Repr, DecidableEq

/-- One manifest entry appended by `extract_apk` (lines 158-169). -/
structure AssetEntry where
  name : String
  filename : String
  ext : String
  type : String
  emoji : String
  unityType : String
  relativePath : String
  sizeBytes : Nat
  size : String
  bundle : String
deriving Repr, DecidableEq

/-- Triple chunking of a flat list: `some` of the triple list when the length
is a multiple of three, `none` otherwise (the Python loops index `l[i+1]`,
`l[i+2]` and raise `IndexError` on a ragged tail, which the exporter's
`except` turns into no recorded write). -/
def triples {α : Type} : List α → Option (List (α × α × α))
  | [] => some []
  | a :: b :: c :: rest => (triples rest).map (fun ts => (a, b, c) :: ts)
  | _ => none

/-- One `v x y z` vertex line of the OBJ output. -/
def vLine (v : Int × Int × Int) : String :=
  "v " ++ toString v.1 ++ " " ++ toString v.2.1 ++ " " ++ toString v.2.2 ++ "\n"

/-- One `f i j k` face line of the OBJ output; the loop writes each index
plus one (zero-based to one-based). -/
def fLine (t : Nat × Nat × Nat) : String :=
  "f " ++ Nat.repr (t.1 + 1) ++ " " ++ Nat.repr (t.2.1 + 1) ++ " " ++
    Nat.repr (t.2.2 + 1) ++ "\n"

/-- The text the mesh exporter writes (lines 130-144): a two-line comment
header, then the vertex lines, then the face lines. Missing arrays default
to `[]` via `dict.get`; a flat array whose length is not a multiple of three
makes the write raise, hence `none`. -/
def meshObjText (name : String) (m : MeshDict) : Option String :=
  match triples (m.m_Vertices.getD []), triples (m.m_IndexBuffer.getD []) with
  | some vs, some ts =>
    some ("# Exported by UnityRip\n# Mesh: " ++ name ++ "\n" ++
      String.join (vs.map vLine) ++ String.join (ts.map fLine))
  | _, _ => none

/-- The export dispatch of `extract_apk` (lines 86-154), branch by branch on
`type_name`. Each branch catches its own exceptions and only marks `wrote`
after a successful write, so its observable outcome is `none` (no file
recorded) or `some content` (file written with `content`). -/
def runExport (o : PyObj) (data : Payload) (name : String) : Option Bytes :=
  if o.type_name = "Texture2D" ∨ o.type_name = "Sprite" then
    data.image
  else if o.type_name = "AudioClip" then
    (data.samples.find? fun s => !s.2.isEmpty).map (fun s => s.2)
  else if o.type_name = "TextAsset" then
    match data.m_Script with
    | some (ScriptVal.bytes bs) => if bs.isEmpty then none else some bs
    | some (ScriptVal.str s) => if s = "" then none else some (utf8Bytes s)
    | none => none
  else if o.type_name = "MonoBehaviour" ∨ o.type_name = "GameObject" then
    (o.parse_as_dict.toOption).map (fun d => utf8Bytes d.jsonDump)
  else if o.type_name = "Mesh" then
    match o.parse_as_dict with
    | Except.ok d => (meshObjText name d.mesh).map utf8Bytes
    | Except.error _ => none
  else
    (o.parse_as_dict.toOption).map (fun d => utf8Bytes d.jsonDump)

/-- Rounding of `10 * num / den` to the nearest integer with ties to even:
for `den` a power of two and `num < 2^53`, this is exactly what Python's
`f"\x7bnum/den:.1f\x7d"` computes before printing. -/
def round1 (num den : Nat) : Nat :=
  let q := 10 * num / den
  let r := 10 * num % den
  if den < 2 * r then q + 1
  else if 2 * r < den then q
  else if q % 2 = 0 then q else q + 1

/-- One-decimal rendering of `b / den`, the `:.1f` part of `fmt_bytes`. -/
def fmt1 (b den : Nat) : String :=
  Nat.repr (round1 b den / 10) ++ "." ++ Nat.repr (round1 b den % 10)

/-- Model of `fmt_bytes` (extract.py lines 177-180). -/
def fmt_bytes (b : Nat) : String :=
  if b < 1024 then Nat.repr b ++ " B"
  else if b < 1024 ^ 2 then fmt1 b 1024 ++ " KB"
  else fmt1 b (1024 ^ 2) ++ " MB"

/-- The running state of the `for obj in env.objects` loop: the result list
and the `seen_names` registry. -/
structure RunState where
  assets : List AssetEntry
  seen_names : List (String × Nat)
deriving Repr, DecidableEq

/-- The body of the extraction loop for one object (lines 61-173): skip
unrecognized type tags, catch a parse exception and continue, compute the
sanitized deduplicated name, dispatch to the exporter, and on a recorded
write append the manifest entry whose size is measured from the written
file. -/
def processObj (st : RunState) (obj : PyObj) : RunState :=
  match pyGet TYPE_META obj.type_name with
  | none => st
  | some meta =>
    match obj.parse_as_object with
    | Except.error _ => st
    | Except.ok data =>
      let base := safe_name (some (pyOr data.m_Name obj.type_name))
      let r := dedupName st.seen_names base
      match runExport obj data r.1 with
      | none => { assets := st.assets, seen_names := r.2 }
      | some content =>
        { assets := st.assets ++ [{
            name := r.1
            filename := r.1 ++ "." ++ meta.ext
            ext := meta.ext
            type := meta.type
            emoji := meta.emoji
            unityType := obj.type_name
            relativePath := meta.type ++ "/" ++ (r.1 ++ "." ++ meta.ext)
            sizeBytes := content.length
            size := fmt_bytes content.length
            bundle := obj.assets_file_name.getD "unknown" }]
          seen_names := r.2 }

/-- The empty loop state: `assets = []`, `seen_names = {}`. -/
def initState : RunState :=
  { assets := [], seen_names := [] }

/-- Model of `extract_apk` (lines 51-175): fold the loop body over the
objects yielded by the AssetSource, in source order, and return the result
list. -/
def extract_apk (objs : List PyObj) : List AssetEntry :=
  (objs.foldl processObj initState).assets

/-- The summary record returned by `build_stats`. -/
structure Stats where
  total : Nat
  byType : List (String × Nat)
  totalSize : String
  bundleCount : Nat
deriving Repr, DecidableEq

/-- One `by_type[a["type"]] = by_type.get(a["type"], 0) + 1` step. -/
def bumpType (m : List (String × Nat)) (k : String) : List (String × Nat) :=
  setAssoc m k ((pyGet m k).getD 0 + 1)

/-- Model of `build_stats` (lines 182-194). `len(set(...))` is the number of
distinct bundle values, i.e. the length of the deduplicated list. -/
def build_stats (assets : List AssetEntry) : Stats :=
  { total := assets.length
    byType := assets.foldl (fun m a => bumpType m a.type) []
    totalSize := fmt_bytes (assets.foldl (fun t a => t + a.sizeBytes) 0)
    bundleCount := ((assets.map fun a => a.bundle).dedup).length }

/-- A fatal run-level exception: its `str(e)` message and its
`traceback.format_exc()` trace. -/
structure PyExc where
  msg : String
  trace : String
deriving Repr, DecidableEq

/-- The manifest record written by `__main__` (lines 205-214): either
`ok:true` with assets and stats, or `ok:false` with error and trace. -/
structure Manifest where
  ok : Bool
  assets : List AssetEntry
  stats : Option Stats
  error : Option String
  trace : Option String
deriving Repr, DecidableEq

/-- Model of the `__main__` block (lines 196-217) after argument parsing:
the run-level `try` either completes the extraction (`ok:true`) or catches a
fatal source failure (`ok:false` with message and trace); the process then
exits with `0 if result["ok"] else 1`, returned here as the second
component. -/
def mainRun (loadResult : Except PyExc (List PyObj)) : Manifest × Nat :=
  match loadResult with
  | Except.ok objs =>
    ({ ok := true, assets := extract_apk objs,
       stats := some (build_stats (extract_apk objs)),
       error := none, trace := none }, 0)
  | Except.error e =>
    ({ ok := false, assets := [], stats := none,
       error := some e.msg, trace := some e.trace }, 1)

/-! Helper development: correctness of the decimal rendering `Nat.repr`,
needed to reason about the `_{counter}` collision suffixes. -/

/-- Structural version of the decimal digit expansion used by `Nat.repr`. -/
def toDigitsAux (n : Nat) : List Char :=
  if _h : n < 10 then [Nat.digitChar n]
  else toDigitsAux (n / 10) ++ [Nat.digitChar (n % 10)]
termination_by n
decreasing_by exact Nat.div_lt_self (by omega) (by omega)

theorem toDigitsCore_eq_aux (fuel : Nat) :
    ∀ (n : Nat) (ds : List Char), n < fuel →
      Nat.toDigitsCore 10 fuel n ds = toDigitsAux n ++ ds := by
  induction fuel with
  | zero => intro n ds h; omega
  | succ fuel ih =>
    intro n ds h
    by_cases h10 : n / 10 = 0
    · have hn : n < 10 := by omega
      rw [toDigitsAux]
      simp [Nat.toDigitsCore, h10, hn, Nat.mod_eq_of_lt hn]
    · have hn : ¬ n < 10 := by omega
      rw [toDigitsAux]
      simp only [Nat.toDigitsCore, if_neg h10, dif_neg hn]
      rw [ih (n / 10) _ (by omega)]
      simp

theorem repr_eq_toDigitsAux (n : Nat) : Nat.repr n = (toDigitsAux n).asString := by
  show (Nat.toDigits 10 n).asString = _
  rw [Nat.toDigits, toDigitsCore_eq_aux (n + 1) n [] (Nat.lt_succ_self n),
    List.append_nil]

/-- Numeric value of a decimal digit string. -/
def digitsVal (l : List Char) : Nat :=
  l.foldl (fun a c => 10 * a + (c.toNat - 48)) 0

theorem digitsVal_append_singleton (l : List Char) (c : Char) :
    digitsVal (l ++ [c]) = 10 * digitsVal l + (c.toNat - 48) := by
  unfold digitsVal
  rw [List.foldl_append]
  rfl

theorem digitChar_toNat_sub : ∀ d : Nat, d < 10 → (Nat.digitChar d).toNat - 48 = d := by
  decide

theorem digitsVal_toDigitsAux (n : Nat) : digitsVal (toDigitsAux n) = n := by
  induction n using Nat.strong_induction_on with
  | _ n ih =>
    by_cases h : n < 10
    · rw [toDigitsAux, dif_pos h]
      show 10 * 0 + ((Nat.digitChar n).toNat - 48) = n
      rw [digitChar_toNat_sub n h]
      omega
    · rw [toDigitsAux, dif_neg h,
        digitsVal_append_singleton,
        ih (n / 10) (Nat.div_lt_self (by omega) (by omega)),
        digitChar_toNat_sub (n % 10) (Nat.mod_lt n (by omega))]
      omega

theorem nat_repr_injective : Function.Injective Nat.repr := by
  intro m n h
  rw [repr_eq_toDigitsAux, repr_eq_toDigitsAux] at h
  simp only [List.asString] at h
  injection h with hd
  calc m = digitsVal (toDigitsAux m) := (digitsVal_toDigitsAux m).symm
    _ = digitsVal (toDigitsAux n) := by rw [hd]
    _ = n := digitsVal_toDigitsAux n

/-! Helper lemmas on the association-list model of Python dicts. -/

theorem pyGet_setAssoc_self {α : Type} (m : List (String × α)) (k : String) (v : α) :
    pyGet (setAssoc m k v) k = some v := by
  induction m with
  | nil => simp [setAssoc, pyGet]
  | cons p rest ih =>
    obtain ⟨a, b⟩ := p
    by_cases h : a = k
    · simp [setAssoc, pyGet, h]
    · simp [setAssoc, pyGet, h, ih]

theorem pyGet_setAssoc_ne {α : Type} (m : List (String × α)) (k c : String) (v : α)
    (h : k ≠ c) : pyGet (setAssoc m k v) c = pyGet m c := by
  induction m with
  | nil => simp [setAssoc, pyGet, h]
  | cons p rest ih =>
    obtain ⟨a, b⟩ := p
    by_cases ha : a = k
    · subst ha
      simp [setAssoc, pyGet, h]
    · simp [setAssoc, pyGet, ha, ih]

/-! Helper lemmas on the model of `str.strip()` and `safe_name`. -/

theorem mem_pyStripData {l : List Char} {c : Char} (h : c ∈ pyStripData l) : c ∈ l := by
  unfold pyStripData at h
  rw [List.mem_reverse] at h
  have h1 := (List.dropWhile_sublist _).mem h
  rw [List.mem_reverse] at h1
  exact (List.dropWhile_sublist _).mem h1

theorem pyStripData_eq_nil_iff (l : List Char) :
    pyStripData l = [] ↔ ∀ c ∈ l, c.isWhitespace := by
  unfold pyStripData
  constructor
  · intro h
    rw [List.reverse_eq_nil_iff, List.dropWhile_eq_nil_iff] at h
    intro c hc
    rw [← List.takeWhile_append_dropWhile (p := Char.isWhitespace) (l := l),
      List.mem_append] at hc
    rcases hc with h1 | h2
    · exact List.mem_takeWhile_imp h1
    · exact h c (List.mem_reverse.2 h2)
  · intro h
    have h1 : l.dropWhile Char.isWhitespace = [] := List.dropWhile_eq_nil_iff.2 h
    simp [h1]

/-- A character of the sanitized (pre-strip) name is whitespace exactly when
the original character was a plain space: every other whitespace character is
outside the allowed set and is replaced by `'_'`, which is not whitespace. -/
theorem sanitized_isWhitespace_iff (a : Char) :
    (if allowedChar a then a else '_').isWhitespace = true ↔ a = ' ' := by
  constructor
  · intro h
    by_cases ha : allowedChar a
    · rw [if_pos ha] at h
      have h4 : a = ' ' ∨ a = '\t' ∨ a = '\r' ∨ a = '\n' := by
        simpa [Char.isWhitespace, or_assoc] using h
      rcases h4 with h1 | h1 | h1 | h1
      · exact h1
      all_goals (subst h1; exact absurd ha (by decide))
    · rw [if_neg ha] at h
      exact absurd h (by decide)
  · intro h
    subst h
    decide

theorem safe_name_none : safe_name none = "unnamed" := rfl

theorem safe_name_empty : safe_name (some "") = "unnamed" := rfl

theorem safe_name_chars (x : Option String) :
    ∀ c ∈ (safe_name x).data, allowedChar c = true := by
  match x with
  | none => decide
  | some s =>
    by_cases hs : s = ""
    · subst hs; decide
    · intro c hc
      rw [safe_name, if_neg hs] at hc
      have h1 : c ∈ s.data.map fun a => if allowedChar a then a else '_' :=
        mem_pyStripData hc
      rcases List.mem_map.1 h1 with ⟨a, _, ha⟩
      by_cases h : allowedChar a
      · rw [if_pos h] at ha; rw [← ha]; exact h
      · rw [if_neg h] at ha; rw [← ha]; decide

theorem safe_name_eq_empty_iff (x : Option String) :
    safe_name x = "" ↔ ∃ s, x = some s ∧ s ≠ "" ∧ ∀ c ∈ s.data, c = ' ' := by
  match x with
  | none =>
    constructor
    · intro h; exact absurd h (by decide)
    · rintro ⟨s, hs, -, -⟩; exact Option.noConfusion hs
  | some s =>
    by_cases hs : s = ""
    · subst hs
      constructor
      · intro h; exact absurd h (by decide)
      · rintro ⟨t, ht, hne, -⟩
        cases Option.some.inj ht
        exact absurd rfl hne
    · rw [safe_name, if_neg hs]
      constructor
      · intro h
        refine ⟨s, rfl, hs, ?_⟩
        intro c hc
        have h0 : pyStripData (s.data.map fun a => if allowedChar a then a else '_') = [] := by
          have := congrArg String.data h
          simpa [pyStrip] using this
        have h1 := (pyStripData_eq_nil_iff _).1 h0
        have h2 := h1 _ (List.mem_map.2 ⟨c, hc, rfl⟩)
        exact (sanitized_isWhitespace_iff c).1 h2
      · rintro ⟨t, ht, -, hsp⟩
        cases Option.some.inj ht
        have h0 : pyStripData (s.data.map fun a => if allowedChar a then a else '_') = [] := by
          rw [pyStripData_eq_nil_iff]
          intro c hc
          rcases List.mem_map.1 hc with ⟨a, ha, rfl⟩
          exact (sanitized_isWhitespace_iff a).2 (hsp a ha)
        rw [pyStrip, h0]

/-! Helper lemmas on the name-deduplication registry. -/

/-- Once a base name is registered with counter `k`, each further call bumps
the counter, so `n` further calls return `base_{k+1} … base_{k+n}`. -/
theorem dedupCalls_of_present (base : String) (n : Nat) :
    ∀ (seen : List (String × Nat)) (k : Nat), pyGet seen base = some k →
      (dedupCalls seen base n).1 =
        (List.range' (k + 1) n).map (fun j => base ++ "_" ++ Nat.repr j) := by
  induction n with
  | zero => intro seen k _; rfl
  | succ n ih =>
    intro seen k h
    rw [List.range'_succ]
    simp only [dedupCalls, dedupName, h, List.map_cons]
    rw [ih (setAssoc seen base (k + 1)) (k + 1) (pyGet_setAssoc_self seen base (k + 1))]

theorem suffixed_ne_base (base : String) (j : Nat) :
    base ++ "_" ++ Nat.repr j ≠ base := by
  intro h
  have h1 := congrArg String.length h
  rw [String.length_append, String.length_append] at h1
  have h2 : ("_" : String).length = 1 := rfl
  omega

theorem suffixed_injective (base : String) :
    Function.Injective fun j => base ++ "_" ++ Nat.repr j := by
  intro i j h
  simp only [String.append_assoc] at h
  have h1 := congrArg String.data h
  simp only [String.data_append] at h1
  have h2 := List.append_cancel_left h1
  have h3 := List.append_cancel_left h2
  exact nat_repr_injective (String.ext h3)

/-! Helper lemmas on the stats aggregation. -/

/-- Sum of the counter values of a `by_type` table. -/
def sumVals (m : List (String × Nat)) : Nat :=
  (m.map fun p => p.2).sum

theorem sumVals_bumpType (m : List (String × Nat)) (k : String) :
    sumVals (bumpType m k) = sumVals m + 1 := by
  induction m with
  | nil => rfl
  | cons p rest ih =>
    obtain ⟨a, b⟩ := p
    by_cases h : a = k
    · subst h
      simp [bumpType, setAssoc, pyGet, sumVals]
      omega
    · have hr : bumpType ((a, b) :: rest) k = (a, b) :: bumpType rest k := by
        simp [bumpType, setAssoc, pyGet, h]
      rw [hr]
      simp only [sumVals, List.map_cons, List.sum_cons] at ih ⊢
      omega

theorem sumVals_foldl (l : List AssetEntry) :
    ∀ m : List (String × Nat),
      sumVals (l.foldl (fun acc a => bumpType acc a.type) m) = sumVals m + l.length := by
  induction l with
  | nil => intro m; simp
  | cons a t ih =>
    intro m
    rw [List.foldl_cons, ih (bumpType m a.type), sumVals_bumpType]
    simp
    omega

theorem pyGet_bumpType_getD (m : List (String × Nat)) (k c : String) :
    (pyGet (bumpType m k) c).getD 0 =
      (pyGet m c).getD 0 + (if k = c then 1 else 0) := by
  by_cases h : k = c
  · subst h
    rw [bumpType, pyGet_setAssoc_self]
    simp
  · rw [bumpType, pyGet_setAssoc_ne _ _ _ _ h, if_neg h]
    omega

theorem pyGet_foldl_count (l : List AssetEntry) (c : String) :
    ∀ m : List (String × Nat),
      (pyGet (l.foldl (fun acc a => bumpType acc a.type) m) c).getD 0 =
        (pyGet m c).getD 0 + (l.filter fun a => a.type = c).length := by
  induction l with
  | nil => intro m; simp
  | cons a t ih =>
    intro m
    rw [List.foldl_cons, ih (bumpType m a.type), pyGet_bumpType_getD]
    by_cases h : a.type = c
    · simp [List.filter_cons, h]
      omega
    · simp [List.filter_cons, h]

/-! Helper lemmas on the extraction loop body. -/

/-- A parse exception is caught by the loop's `except: continue` before any
state was touched: the loop state is unchanged. -/
theorem processObj_parse_error (st : RunState) (o : PyObj) (e : String)
    (h : o.parse_as_object = Except.error e) : processObj st o = st := by
  unfold processObj
  cases pyGet TYPE_META o.type_name <;> simp [h]

/-- An object whose processing fails: either its parse raises, or it parses
but its exporter records no write (guard falsy, or an exception caught inside
the exporter branch). -/
def objFails (o : PyObj) : Prop :=
  (∃ e, o.parse_as_object = Except.error e) ∨
  (∃ data, o.parse_as_object = Except.ok data ∧ ∀ nm, runExport o data nm = none)

theorem processObj_fails_assets (st : RunState) (o : PyObj) (h : objFails o) :
    (processObj st o).assets = st.assets := by
  rcases h with ⟨e, he⟩ | ⟨data, hd, hexp⟩
  · rw [processObj_parse_error st o e he]
  · unfold processObj
    cases pyGet TYPE_META o.type_name
    · rfl
    · rw [hd]
      simp [hexp]

/-- The field-consistency invariant of one manifest entry: `filename` is
`name.ext`, `relativePath` is `category/filename`, and `ext`/`type` are the
`TYPE_META` row of the entry's `unityType` tag. -/
def entryConsistent (a : AssetEntry) : Prop :=
  a.filename = a.name ++ "." ++ a.ext ∧
  a.relativePath = a.type ++ "/" ++ a.filename ∧
  ∃ meta, pyGet TYPE_META a.unityType = some meta ∧
    meta.ext = a.ext ∧ meta.type = a.type

theorem processObj_consistent (st : RunState) (o : PyObj)
    (h : ∀ a ∈ st.assets, entryConsistent a) :
    ∀ a ∈ (processObj st o).assets, entryConsistent a := by
  intro a ha
  unfold processObj at ha
  split at ha
  · exact h a ha
  · rename_i meta hm
    split at ha
    · exact h a ha
    · rename_i data hp
      dsimp only at ha
      split at ha
      · exact h a ha
      · rename_i content hx
        rcases List.mem_append.1 ha with h1 | h2
        · exact h a h1
        · rw [List.mem_singleton] at h2
          subst h2
          exact ⟨rfl, rfl, meta, hm, rfl, rfl⟩

theorem foldl_processObj_consistent (objs : List PyObj) :
    ∀ st : RunState, (∀ a ∈ st.assets, entryConsistent a) →
      ∀ a ∈ (objs.foldl processObj st).assets, entryConsistent a := by
  induction objs with
  | nil => intro st h; simpa using h
  | cons o t ih =>
    intro st h
    rw [List.foldl_cons]
    exact ih _ (processObj_consistent st o h)

/-- Flattening of a triple list, inverse to `triples`. -/
def flat3 {α : Type} : List (α × α × α) → List α
  | [] => []
  | (a, b, c) :: rest => a :: b :: c :: flat3 rest

theorem triples_flat3 {α : Type} (l : List (α × α × α)) :
    triples (flat3 l) = some l := by
  induction l with
  | nil => rfl
  | cons t rest ih =>
    obtain ⟨a, b, c⟩ := t
    simp [flat3, triples, ih]

/-! Concrete object records used to instantiate the claims. -/

/-- A well-formed `TextAsset` whose export succeeds. -/
def textObjOk : PyObj :=
  { type_name := "TextAsset"
    parse_as_object := Except.ok
      { m_Name := some "Readme", image := none, samples := [],
        m_Script := some (ScriptVal.str "hello") }
    parse_as_dict := Except.error "unused"
    assets_file_name := some "b0" }

/-- An object whose `parse_as_object()` raises. -/
def parseFailObj : PyObj :=
  { type_name := "Texture2D"
    parse_as_object := Except.error "corrupt record"
    parse_as_dict := Except.error "corrupt record"
    assets_file_name := none }

/-- A well-formed `MonoBehaviour` with the given display name, whose JSON
typetree dump serializes to one byte of text. -/
def monoObjNamed (nm : String) : PyObj :=
  { type_name := "MonoBehaviour"
    parse_as_object := Except.ok
      { m_Name := some nm, image := none, samples := [], m_Script := none }
    parse_as_dict := Except.ok
      { mesh := { m_Vertices := none, m_IndexBuffer := none }, jsonDump := "x" }
    assets_file_name := some "bundle0" }

/-- A texture object whose decoded image is present but whose encoded raster
output is zero bytes long. -/
def zeroByteTexture : PyObj :=
  { type_name := "Texture2D"
    parse_as_object := Except.ok
      { m_Name := some "T", image := some [], samples := [], m_Script := none }
    parse_as_dict := Except.error "unused"
    assets_file_name := some "b1" }

/-! The claims. -/

/-- C1: an exception raised while processing one object does not terminate
the iteration: for any surrounding objects, the run completes with a
manifest reporting `ok:true`; when the failed object's parse raises, the
entry list is exactly the one obtained by omitting that object, and in every
failure mode the failed object contributes no entry of its own. -/
theorem c1_per_object_exception_isolated (xs ys : List PyObj) (o : PyObj)
    (hf : objFails o) :
    (mainRun (Except.ok (xs ++ o :: ys))).1.ok = true ∧
    ((∃ e, o.parse_as_object = Except.error e) →
      (mainRun (Except.ok (xs ++ o :: ys))).1.assets = extract_apk (xs ++ ys)) ∧
    (List.foldl processObj initState (xs ++ [o])).assets =
      (List.foldl processObj initState xs).assets := by
  refine ⟨rfl, ?_, ?_⟩
  · rintro ⟨e, he⟩
    show extract_apk (xs ++ o :: ys) = extract_apk (xs ++ ys)
    unfold extract_apk
    rw [List.foldl_append, List.foldl_append, List.foldl_cons,
      processObj_parse_error _ o e he]
  · rw [List.foldl_append, List.foldl_cons, List.foldl_nil]
    exact processObj_fails_assets _ o hf

/-- Witness for C1: a concrete three-object run whose middle object's parse
raises still yields `ok:true` and the entry list of the two good objects. -/
theorem c1_witness :
    (mainRun (Except.ok ([textObjOk] ++ parseFailObj :: [monoObjNamed "B"]))).1.ok = true ∧
    ((∃ e, parseFailObj.parse_as_object = Except.error e) →
      (mainRun (Except.ok ([textObjOk] ++ parseFailObj :: [monoObjNamed "B"]))).1.assets =
        extract_apk ([textObjOk] ++ [monoObjNamed "B"])) ∧
    (List.foldl processObj initState ([textObjOk] ++ [parseFailObj])).assets =
      (List.foldl processObj initState [textObjOk]).assets :=
  c1_per_object_exception_isolated [textObjOk] [monoObjNamed "B"] parseFailObj
    (Or.inl ⟨"corrupt record", rfl⟩)

/-- C2: the per-category filename uniqueness invariant fails on the code.
Three `MonoBehaviour` objects whose display names sanitize to `A`, `A` and
`A_1` all export successfully, and the run produces two distinct entries of
category `script` that share the filename `A_1.json`: the registry only
tracks base names, so the collision suffix `_1` given to the second object
is never compared against the literal base name `A_1` of the third. -/
theorem c2_duplicate_filenames_same_category :
    ((extract_apk [monoObjNamed "A", monoObjNamed "A", monoObjNamed "A_1"]).map
      fun a => a.filename) = ["A.json", "A_1.json", "A_1.json"] ∧
    ((extract_apk [monoObjNamed "A", monoObjNamed "A", monoObjNamed "A_1"]).map
      fun a => a.type) = ["script", "script", "script"] ∧
    ¬ ((extract_apk [monoObjNamed "A", monoObjNamed "A", monoObjNamed "A_1"]).map
      fun a => a.filename).Nodup := by
  decide

/-- C3 counterexample: the raw name `" "` is non-empty, so it does not take
the `"unnamed"` fallback, yet sanitization returns the empty string (the
space survives the character replacement and is then stripped). -/
theorem c3_counterexample_space_name :
    safe_name (some " ") = "" ∧ (" " : String) ≠ "" := by
  decide

/-- C3 (amended): `safe_name` returns the fixed fallback `"unnamed"` for
`None` or `""`; every character of any output is in the allowed set
(alphanumerics, `.`, `_`, `-`, space); and the output is empty exactly when
the input is a non-empty string consisting entirely of spaces — not "never
empty" as claimed. -/
theorem c3_sanitize_amended (x : Option String) :
    safe_name none = "unnamed" ∧ safe_name (some "") = "unnamed" ∧
    (∀ c ∈ (safe_name x).data, allowedChar c = true) ∧
    (safe_name x = "" ↔ ∃ s, x = some s ∧ s ≠ "" ∧ ∀ c ∈ s.data, c = ' ') :=
  ⟨safe_name_none, safe_name_empty, safe_name_chars x, safe_name_eq_empty_iff x⟩

/-- C4: starting from any registry not yet containing `base`, a run of
`n + 1` deduplication calls on `base` returns `base` first (registering
counter 0) and then `base_1 … base_n` in call order, and these names are
pairwise distinct. -/
theorem c4_dedup_repeated_base (seen0 : List (String × Nat)) (base : String)
    (n : Nat) (h : pyGet seen0 base = none) :
    (dedupCalls seen0 base (n + 1)).1 =
      base :: (List.range' 1 n).map (fun k => base ++ "_" ++ Nat.repr k) ∧
    (dedupName seen0 base).1 = base ∧
    pyGet (dedupName seen0 base).2 base = some 0 ∧
    (dedupCalls seen0 base (n + 1)).1.Nodup := by
  have hfirst : dedupName seen0 base = (base, setAssoc seen0 base 0) := by
    rw [dedupName, h]
  have hout : (dedupCalls seen0 base (n + 1)).1 =
      base :: (List.range' 1 n).map (fun k => base ++ "_" ++ Nat.repr k) := by
    simp only [dedupCalls, hfirst]
    rw [dedupCalls_of_present base n (setAssoc seen0 base 0) 0
      (pyGet_setAssoc_self seen0 base 0)]
  refine ⟨hout, by rw [hfirst], ?_, ?_⟩
  · rw [hfirst]
    exact pyGet_setAssoc_self seen0 base 0
  · rw [hout, List.nodup_cons]
    constructor
    · intro hmem
      rcases List.mem_map.1 hmem with ⟨j, _, hj⟩
      exact suffixed_ne_base base j hj
    · exact (List.nodup_range' 1 n).map (suffixed_injective base)

/-- Witness for C4: three calls on the fresh base name `A` yield
`A`, `A_1`, `A_2`. -/
theorem c4_witness :
    (dedupCalls [] "A" (2 + 1)).1 =
      "A" :: (List.range' 1 2).map (fun k => "A" ++ "_" ++ Nat.repr k) ∧
    (dedupName [] "A").1 = "A" ∧
    pyGet (dedupName [] "A").2 "A" = some 0 ∧
    (dedupCalls [] "A" (2 + 1)).1.Nodup :=
  c4_dedup_repeated_base [] "A" 2 rfl

/-- C5 counterexample: a texture object whose decoded image is present but
whose encoded raster write is zero bytes long is recorded as exported, so
the run produces an entry with `sizeBytes = 0` — the loop checks only the
`wrote` flag and never guards against zero-length writes. -/
theorem c5_counterexample_zero_size_entry :
    (extract_apk [zeroByteTexture]).map (fun a => a.sizeBytes) = [0] := by
  decide

/-- C5 (amended): an object whose export step fails produces no entry, but a
successful export always appends exactly one entry whose `sizeBytes` is the
number of bytes written — including an entry with `sizeBytes = 0` when the
exporter writes zero bytes, since zero-length writes are not guarded. -/
theorem c5_export_outcomes (st : RunState) (o : PyObj) (data : Payload)
    (nm : String) (hp : o.parse_as_object = Except.ok data)
    (hnm : nm = (dedupName st.seen_names
      (safe_name (some (pyOr data.m_Name o.type_name)))).1) :
    (runExport o data nm = none → (processObj st o).assets = st.assets) ∧
    (∀ content meta, pyGet TYPE_META o.type_name = some meta →
      runExport o data nm = some content →
      ∃ en, (processObj st o).assets = st.assets ++ [en] ∧
        en.sizeBytes = content.length) := by
  subst hnm
  constructor
  · intro hx
    unfold processObj
    cases pyGet TYPE_META o.type_name with
    | none => rfl
    | some meta =>
      rw [hp]
      dsimp only
      rw [hx]
  · intro content meta hm hx
    unfold processObj
    rw [hm, hp]
    dsimp only
    rw [hx]
    exact ⟨_, rfl, rfl⟩

/-- Witness for C5: the zero-byte texture instantiation; its export returns
an empty write and the appended entry has `sizeBytes = 0`. -/
theorem c5_witness :
    (runExport zeroByteTexture
        { m_Name := some "T", image := some [], samples := [], m_Script := none }
        "T" = none →
      (processObj initState zeroByteTexture).assets = initState.assets) ∧
    (∀ content meta, pyGet TYPE_META zeroByteTexture.type_name = some meta →
      runExport zeroByteTexture
        { m_Name := some "T", image := some [], samples := [], m_Script := none }
        "T" = some content →
      ∃ en, (processObj initState zeroByteTexture).assets =
          initState.assets ++ [en] ∧ en.sizeBytes = content.length) :=
  c5_export_outcomes initState zeroByteTexture
    { m_Name := some "T", image := some [], samples := [], m_Script := none }
    "T" rfl (by decide)

/-- C6 counterexample: for a mesh with one vertex and no index array the
claimed file content would be exactly `v 1 2 3\n`, but the exporter first
writes a two-line comment header. -/
theorem c6_counterexample_header_lines :
    meshObjText "M" { m_Vertices := some [1, 2, 3], m_IndexBuffer := none } =
      some "# Exported by UnityRip\n# Mesh: M\nv 1 2 3\n" ∧
    meshObjText "M" { m_Vertices := some [1, 2, 3], m_IndexBuffer := none } ≠
      some "v 1 2 3\n" := by
  decide

/-- C6 (amended): for a flat vertex array of `3n` numbers and a flat index
array of `3m` indices, the geometry exporter writes the two-line comment
header followed by exactly one `v x y z` line per vertex and then exactly
one `f i1+1 i2+1 i3+1` line per triangle (indices shifted to one-based by
`fLine`); a missing array defaults to empty, contributing zero lines rather
than failing. -/
theorem c6_mesh_export_structure (name : String) (d : MeshDict)
    (vs : List (Int × Int × Int)) (ts : List (Nat × Nat × Nat))
    (hv : d.m_Vertices.getD [] = flat3 vs)
    (hi : d.m_IndexBuffer.getD [] = flat3 ts) :
    meshObjText name d =
      some ("# Exported by UnityRip\n# Mesh: " ++ name ++ "\n" ++
        String.join (vs.map vLine) ++ String.join (ts.map fLine)) := by
  unfold meshObjText
  rw [hv, hi, triples_flat3, triples_flat3]

/-- Witness for C6: a concrete one-triangle mesh. -/
theorem c6_witness :
    meshObjText "Cube"
        { m_Vertices := some [0, 1, 2], m_IndexBuffer := some [0, 1, 2] } =
      some ("# Exported by UnityRip\n# Mesh: " ++ "Cube" ++ "\n" ++
        String.join ([((0 : Int), (1 : Int), (2 : Int))].map vLine) ++
        String.join ([((0 : Nat), (1 : Nat), (2 : Nat))].map fLine)) :=
  c6_mesh_export_structure "Cube"
    { m_Vertices := some [0, 1, 2], m_IndexBuffer := some [0, 1, 2] }
    [(0, 1, 2)] [(0, 1, 2)] rfl rfl

/-- C7: for every entry list, `total` is the list length, the `byType`
counters sum to `total` and each counter is the number of entries of its
category, and `bundleCount` is the number of distinct bundle values. -/
theorem c7_stats_aggregation (assets : List AssetEntry) :
    (build_stats assets).total = assets.length ∧
    sumVals (build_stats assets).byType = assets.length ∧
    (∀ c, (pyGet (build_stats assets).byType c).getD 0 =
      (assets.filter fun a => a.type = c).length) ∧
    (build_stats assets).bundleCount = (assets.map fun a => a.bundle).toFinset.card := by
  refine ⟨rfl, ?_, ?_, ?_⟩
  · show sumVals (assets.foldl (fun m a => bumpType m a.type) []) = assets.length
    rw [sumVals_foldl]
    simp [sumVals]
  · intro c
    show (pyGet (assets.foldl (fun m a => bumpType m a.type) []) c).getD 0 = _
    rw [pyGet_foldl_count]
    simp [pyGet]
  · show (assets.map fun a => a.bundle).dedup.length = _
    exact (List.card_toFinset _).symm

/-- C8: the size rendering uses plain bytes below 1024, one-decimal
kilobytes below 1024², one-decimal megabytes above, and renders the claimed
concrete instances 500, 2048 and 3·1024² exactly as stated. -/
theorem c8_fmt_bytes_rendering (b : Nat) :
    (b < 1024 → fmt_bytes b = Nat.repr b ++ " B") ∧
    (1024 ≤ b → b < 1024 ^ 2 → fmt_bytes b = fmt1 b 1024 ++ " KB") ∧
    (1024 ^ 2 ≤ b → fmt_bytes b = fmt1 b (1024 ^ 2) ++ " MB") ∧
    fmt_bytes 500 = "500 B" ∧ fmt_bytes 2048 = "2.0 KB" ∧
    fmt_bytes (3 * 1024 * 1024) = "3.0 MB" := by
  refine ⟨?_, ?_, ?_, by decide, by decide, by decide⟩
  · intro h
    rw [fmt_bytes, if_pos h]
  · intro h1 h2
    rw [fmt_bytes, if_neg (by omega), if_pos h2]
  · intro h
    rw [fmt_bytes, if_neg (by omega), if_neg (by omega)]

/-- Witness for C8: the kilobyte branch at 2048 bytes. -/
theorem c8_witness :
    fmt_bytes 2048 = fmt1 2048 1024 ++ " KB" ∧ fmt_bytes 2048 = "2.0 KB" :=
  ⟨(c8_fmt_bytes_rendering 2048).2.1 (by decide) (by decide),
   (c8_fmt_bytes_rendering 2048).2.2.2.2.1⟩

/-- C9 counterexample: the code stores `str(e)` verbatim, so a fatal source
failure whose exception carries no message produces a manifest whose
`error` field is the empty string — refuting the claimed non-empty error
message at a concrete failing run. -/
theorem c9_counterexample_empty_message :
    (mainRun (Except.error
      { msg := "", trace := "Traceback (most recent call last): boom" })).1.ok = false ∧
    (mainRun (Except.error
      { msg := "", trace := "Traceback (most recent call last): boom" })).1.error = some "" :=
  ⟨rfl, rfl⟩

/-- C9 (amended): when opening or iterating the AssetSource fails entirely,
the manifest has `ok:false`, its `error` field is exactly the exception's
text `str(e)` — hence empty precisely when that text is empty, rather than
always non-empty — and its `trace` carries the failure traceback, and the
process exits with code 1; conversely any run whose manifest has `ok:true`
exits with code 0. -/
theorem c9_fatal_failure_manifest_amended (e : PyExc) :
    (mainRun (Except.error e)).1.ok = false ∧
    (mainRun (Except.error e)).1.error = some e.msg ∧
    ((mainRun (Except.error e)).1.error = some "" ↔ e.msg = "") ∧
    (mainRun (Except.error e)).1.trace = some e.trace ∧
    (mainRun (Except.error e)).2 = 1 ∧
    (∀ r, (mainRun r).1.ok = true → (mainRun r).2 = 0) := by
  refine ⟨rfl, rfl, ?_, rfl, rfl, ?_⟩
  · constructor
    · intro hs
      exact Option.some.inj hs
    · intro hs
      exact congrArg Option.some hs
  · intro r hr
    cases r with
    | ok objs => rfl
    | error e2 => simp [mainRun] at hr

/-- C10: every entry the pipeline appends has mutually consistent fields:
`filename = name ++ "." ++ ext`, `relativePath = type ++ "/" ++ filename`,
and `ext`/`type` are exactly the `TYPE_META` row of the entry's `unityType`
tag. -/
theorem c10_entry_fields_consistent (objs : List PyObj) (a : AssetEntry)
    (ha : a ∈ extract_apk objs) :
    a.filename = a.name ++ "." ++ a.ext ∧
    a.relativePath = a.type ++ "/" ++ a.filename ∧
    ∃ meta, pyGet TYPE_META a.unityType = some meta ∧
      meta.ext = a.ext ∧ meta.type = a.type :=
  foldl_processObj_consistent objs initState (by simp [initState]) a ha

/-- The single entry produced by one successful `MonoBehaviour` export,
used to instantiate C10. -/
def witnessEntryB : AssetEntry :=
  { name := "B", filename := "B.json", ext := "json", type := "script",
    emoji := "📜", unityType := "MonoBehaviour", relativePath := "script/B.json",
    sizeBytes := 1, size := "1 B", bundle := "bundle0" }

/-- Witness for C10: the concrete entry of a one-object run. -/
theorem c10_witness :
    witnessEntryB.filename = witnessEntryB.name ++ "." ++ witnessEntryB.ext ∧
    witnessEntryB.relativePath = witnessEntryB.type ++ "/" ++ witnessEntryB.filename ∧
    ∃ meta, pyGet TYPE_META witnessEntryB.unityType = some meta ∧
      meta.ext = witnessEntryB.ext ∧ meta.type = witnessEntryB.type :=
  c10_entry_fields_consistent [monoObjNamed "B"] witnessEntryB (by decide)

end UnityExtract
